import Mathlib

/-!
Shallow embedding of the real-time simulation streaming client of the
Network-Flow-Defence repository (src/frontend/src/hooks/useSimulation.js),
together with the small piece of src/frontend/src/pages/GameScreen.jsx that
surfaces the simulation error to the user.

The hook owns one WebSocket at a time, connects to a primary URL on mount and
retries once on a fallback URL, classifies inbound frames inside ws.onmessage,
and exposes startSimulation and resetSimulation commands.  We model the React
state (simulationData, simulationStatus, error) plus the closure variable
closedByUs, the role of the current socket (primary or fallback), its
readyState, and a ghost log of the payloads sent on the socket.
-/

/-- The simulationStatus strings used by useSimulation.js. -/
inductive Status where
  | IDLE
  | READY
  | RUNNING
  | COMPLETE
  | ERROR
  | DISCONNECTED
deriving DecidableEq, Repr

/-- WebSocket readyState values (WHATWG WebSocket API). -/
inductive ReadyState where
  | CONNECTING
  | OPEN
  | CLOSING
  | CLOSED
deriving DecidableEq, Repr

/-- Which connection target the current socket was created for: the relative
primary path through the Vite proxy, or the absolute fallback URL. -/
inductive Role where
  | primary
  | fallback
deriving DecidableEq, Repr

/-- Projection of a successfully parsed JSON frame onto the fields the hook
inspects: the optional status string, the optional step index (the code only
tests step for being defined), the optional message string, and the
infected-nodes list carried by step frames.  The whole object is what gets
appended to simulationData. -/
structure JsonObj where
  status : Option String
  step : Option Int
  message : Option String
  infected_nodes : List String
deriving DecidableEq, Repr

/-- One inbound textual frame, after the JSON.parse attempt inside
ws.onmessage: either the parse threw (malformed) or it produced an object. -/
inductive RawFrame where
  | malformed
  | obj (o : JsonObj)
deriving DecidableEq, Repr

/-- Classification of one inbound frame, following the if/else-if chain of
ws.onmessage in useSimulation.js. -/
inductive DecodedEvent where
  | completion
  | stepEv (o : JsonObj)
  | errorEv (message : Option String)
  | unrecognized (o : JsonObj)
  | malformedEv
deriving DecidableEq, Repr

/-- The frame classifier, read off the ws.onmessage handler: first the check
data.status === "Simulation_Complete", then data.step !== undefined, then
data.status === "ERROR", else the frame is merely logged. -/
def decode : RawFrame → DecodedEvent
  | RawFrame.malformed => DecodedEvent.malformedEv
  | RawFrame.obj o =>
      if o.status = some "Simulation_Complete" then DecodedEvent.completion
      else if o.step.isSome then DecodedEvent.stepEv o
      else if o.status = some "ERROR" then DecodedEvent.errorEv o.message
      else DecodedEvent.unrecognized o

/-- The state of one mounted useSimulation session: the three React state
cells, the closedByUs closure flag, the current socket (role and readyState),
and a log of payloads passed to socket.send. -/
structure SessionState where
  simulationData : List JsonObj
  simulationStatus : Status
  error : Option String
  closedByUs : Bool
  sockRole : Role
  sockState : ReadyState
  sent : List String
deriving DecidableEq, Repr

/-- State right after the mount effect ran connect(false): a primary socket in
the CONNECTING state, status IDLE, empty step log, no error. -/
def initialState : SessionState :=
  { simulationData := []
    simulationStatus := Status.IDLE
    error := none
    closedByUs := false
    sockRole := Role.primary
    sockState := ReadyState.CONNECTING
    sent := [] }

/-- startSimulation: guarded by socket.readyState === WebSocket.OPEN and
simulationStatus === "READY"; when the guard holds it clears the data list,
moves to RUNNING, clears the error and sends the literal "START"; otherwise it
only logs a warning. -/
def startSimulation (s : SessionState) : SessionState :=
  if s.sockState = ReadyState.OPEN ∧ s.simulationStatus = Status.READY then
    { s with simulationData := []
             simulationStatus := Status.RUNNING
             error := none
             sent := s.sent ++ ["START"] }
  else s

/-- resetSimulation: unconditionally clears the data list, sets status IDLE
and clears the error; the socket is not touched. -/
def resetSimulation (s : SessionState) : SessionState :=
  { s with simulationData := []
           simulationStatus := Status.IDLE
           error := none }

/-- ws.onopen: the socket is now OPEN, status becomes READY, error cleared. -/
def handleOpen (s : SessionState) : SessionState :=
  { s with sockState := ReadyState.OPEN
           simulationStatus := Status.READY
           error := none }

/-- ws.onmessage: classify the frame and act exactly as the handler does.
A completion frame sets COMPLETE; a step frame appends the whole object to
simulationData; an error frame records the message and sets ERROR; an
unrecognized frame is only logged; a parse failure sets the error string
"Failed to parse simulation data" and leaves everything else alone. -/
def handleMessage (s : SessionState) (f : RawFrame) : SessionState :=
  match decode f with
  | DecodedEvent.completion => { s with simulationStatus := Status.COMPLETE }
  | DecodedEvent.stepEv o => { s with simulationData := s.simulationData ++ [o] }
  | DecodedEvent.errorEv m => { s with error := m, simulationStatus := Status.ERROR }
  | DecodedEvent.unrecognized _ => s
  | DecodedEvent.malformedEv => { s with error := some "Failed to parse simulation data" }

/-- The connect(true) call made from ws.onclose: a fresh socket for the
fallback URL, starting in CONNECTING. -/
def connectFallback (s : SessionState) : SessionState :=
  { s with sockRole := Role.fallback
           sockState := ReadyState.CONNECTING }

/-- ws.onclose: the socket is now CLOSED; if not closedByUs, a primary socket
is retried once via connect(true) while a fallback socket yields status
DISCONNECTED and the error "WebSocket connection error". -/
def handleClose (s : SessionState) : SessionState :=
  let s1 := { s with sockState := ReadyState.CLOSED }
  if s1.closedByUs then s1
  else
    match s1.sockRole with
    | Role.primary => connectFallback s1
    | Role.fallback =>
        { s1 with simulationStatus := Status.DISCONNECTED
                  error := some "WebSocket connection error" }

/-- The effect cleanup: set closedByUs before anything else, then call
ws.close() if the socket is OPEN or CONNECTING (close moves the readyState to
CLOSING; the transport later delivers onclose). -/
def teardownSession (s : SessionState) : SessionState :=
  let s1 := { s with closedByUs := true }
  if s1.sockState = ReadyState.OPEN ∨ s1.sockState = ReadyState.CONNECTING then
    { s1 with sockState := ReadyState.CLOSING }
  else s1

/-- The events a mounted session can observe: the two commands, the four
transport callbacks on the current socket, and the effect cleanup. -/
inductive Event where
  | start
  | reset
  | onOpen
  | onMessage (f : RawFrame)
  | onClose
  | onError
  | teardown
deriving DecidableEq, Repr

/-- One step of the session: dispatch an event to the handler the hook
installs for it.  ws.onerror only logs, so it leaves the state unchanged. -/
def dispatch (s : SessionState) : Event → SessionState
  | Event.start => startSimulation s
  | Event.reset => resetSimulation s
  | Event.onOpen => handleOpen s
  | Event.onMessage f => handleMessage s f
  | Event.onClose => handleClose s
  | Event.onError => s
  | Event.teardown => teardownSession s

/-- Run a list of events from a state, left to right. -/
def run (s : SessionState) (es : List Event) : SessionState :=
  es.foldl dispatch s

/-- Whether an event is a transport callback (as opposed to a command or the
effect cleanup). -/
def isTransportEvent : Event → Bool
  | Event.onOpen => true
  | Event.onMessage _ => true
  | Event.onClose => true
  | Event.onError => true
  | _ => false

/-- Which events the transport can actually deliver in a given state,
following the WHATWG WebSocket lifecycle for the current socket: onopen fires
only while CONNECTING (never after close() was called), onmessage only while
OPEN, onclose exactly once as the final event of a socket, and onerror any
time before that.  Commands and the cleanup can run at any time. -/
def admissibleEvent (s : SessionState) : Event → Bool
  | Event.onOpen => s.sockState = ReadyState.CONNECTING
  | Event.onMessage _ => s.sockState = ReadyState.OPEN
  | Event.onClose => s.sockState ≠ ReadyState.CLOSED
  | Event.onError => s.sockState ≠ ReadyState.CLOSED
  | _ => true

/-- A list of events is admissible from a state when each event is admissible
in the state reached by the ones before it. -/
def admissibleRun (s : SessionState) : List Event → Bool
  | [] => true
  | e :: es => admissibleEvent s e && admissibleRun (dispatch s e) es

/-- The objects of the frames a decoder run classifies as step events, in
arrival order. -/
def stepsOf (fs : List RawFrame) : List JsonObj :=
  fs.filterMap fun f =>
    match decode f with
    | DecodedEvent.stepEv o => some o
    | _ => none

/-- ASCII lowercase of one character. -/
def lowerChar (c : Char) : Char :=
  if 'A' ≤ c ∧ c ≤ 'Z' then Char.ofNat (c.toNat + 32) else c

/-- ASCII lowercase of a string, character by character. -/
def strLower (s : String) : String := ⟨s.data.map lowerChar⟩

/-- Modelled from the spec: the completion-marker test as the spec words it,
a case-insensitive comparison with "simulation complete".  Kept separate from
decode (which embeds the source) so the two can be compared. -/
def specCompletionMarker (st : Option String) : Bool :=
  match st with
  | some v => strLower v = "simulation complete"
  | none => false

/-- GameScreen.jsx renders the full-page Simulation Error screen exactly when
the simulationError value is truthy (non-null, non-empty string). -/
def simulationErrorShown (e : Option String) : Bool :=
  match e with
  | none => false
  | some m => ¬ m.isEmpty

/-- The completion frame of the protocol (section 6 of the interface). -/
def complFrame : RawFrame :=
  RawFrame.obj { status := some "Simulation_Complete", step := none, message := none, infected_nodes := [] }

/-- A step frame carrying a step index and its infected-node list. -/
def stepFrame (n : Int) (ns : List String) : RawFrame :=
  RawFrame.obj { status := none, step := some n, message := none, infected_nodes := ns }

/-- An inbound frame that parses but matches none of the three branches. -/
def otherFrame : RawFrame :=
  RawFrame.obj { status := some "other", step := none, message := none, infected_nodes := [] }

/-! ## Helper lemmas -/

/-- Running a cons of events folds one dispatch step. -/
theorem run_cons (s : SessionState) (e : Event) (es : List Event) :
    run s (e :: es) = run (dispatch s e) es := rfl

/-- startSimulation is the identity whenever its guard fails. -/
theorem startSimulation_noop (s : SessionState)
    (h : ¬ (s.sockState = ReadyState.OPEN ∧ s.simulationStatus = Status.READY)) :
    startSimulation s = s := by
  simp only [startSimulation, if_neg h]

/-- No event other than onOpen can make simulationStatus READY: every other
handler either leaves the status alone or sets it to a value that is not
READY. -/
theorem status_ready_only_onOpen (s : SessionState) (e : Event)
    (he : e ≠ Event.onOpen) (hs : s.simulationStatus ≠ Status.READY) :
    (dispatch s e).simulationStatus ≠ Status.READY := by
  cases e with
  | start =>
      simp only [dispatch, startSimulation]
      split
      · simp
      · exact hs
  | reset => simp [dispatch, resetSimulation]
  | onOpen => exact absurd rfl he
  | onMessage f =>
      simp only [dispatch, handleMessage]
      cases hd : decode f <;> simp_all
  | onClose =>
      simp only [dispatch, handleClose]
      split
      · exact hs
      · cases hr : s.sockRole <;> simp_all [connectFallback]
  | onError => exact hs
  | teardown =>
      simp only [dispatch, teardownSession]
      split
      · exact hs
      · exact hs

/-! ## Claim theorems -/

/-- Claim C6 (confirmed): resetSimulation, from any state, sets the status to
IDLE, clears the step log and the error, and leaves the socket untouched (the
role, readyState, closedByUs flag and send log are all unchanged, so the
transport is neither closed nor reopened). -/
theorem C6_reset (s : SessionState) :
    dispatch s Event.reset =
      { s with simulationData := []
               simulationStatus := Status.IDLE
               error := none } ∧
    (dispatch s Event.reset).sockRole = s.sockRole ∧
    (dispatch s Event.reset).sockState = s.sockState ∧
    (dispatch s Event.reset).closedByUs = s.closedByUs ∧
    (dispatch s Event.reset).sent = s.sent :=
  ⟨rfl, rfl, rfl, rfl, rfl⟩

/-- Claim C7 (confirmed): over any sequence of inbound frames, the step log
grows by exactly the objects of the frames decoded as step events, in arrival
order, with no reordering, no drops and no deduplication. -/
theorem C7_step_log (s : SessionState) (fs : List RawFrame) :
    (run s (fs.map Event.onMessage)).simulationData = s.simulationData ++ stepsOf fs := by
  induction fs generalizing s with
  | nil => simp [run, stepsOf]
  | cons f fs ih =>
      have h := ih (dispatch s (Event.onMessage f))
      simp only [List.map_cons, run_cons] at *
      rw [h]
      simp only [stepsOf, List.filterMap_cons, dispatch, handleMessage]
      cases hd : decode f <;> simp [stepsOf]

/-- Claim C9 (confirmed): the message handler does not consult the current
phase before acting on a completion frame, so a completion frame sets the
status to COMPLETE from every state, whatever its phase. -/
theorem C9_completion_any_phase (s : SessionState) (f : RawFrame)
    (h : decode f = DecodedEvent.completion) :
    (dispatch s (Event.onMessage f)).simulationStatus = Status.COMPLETE := by
  simp only [dispatch, handleMessage, h]

/-- Witness for C9 at a concrete state whose phase is IDLE. -/
theorem C9_completion_any_phase_witness :
    (dispatch initialState (Event.onMessage complFrame)).simulationStatus = Status.COMPLETE :=
  C9_completion_any_phase initialState complFrame (by decide)

/-- Claim C2 (corrected) counterexample: starting from the mounted state, the
primary socket opens (status READY) and then drops; the hook retries via the
fallback, whose socket is still CONNECTING, so the status is READY while the
socket is not OPEN.  In that reachable state startSimulation is a no-op: no
"START" is sent and the status does not become RUNNING, refuting the claim
that phase READY alone suffices for start() to act. -/
theorem C2_start_counterexample :
    admissibleRun initialState [Event.onOpen, Event.onClose] = true ∧
    (run initialState [Event.onOpen, Event.onClose]).simulationStatus = Status.READY ∧
    dispatch (run initialState [Event.onOpen, Event.onClose]) Event.start =
      run initialState [Event.onOpen, Event.onClose] ∧
    (dispatch (run initialState [Event.onOpen, Event.onClose]) Event.start).sent = [] ∧
    (dispatch (run initialState [Event.onOpen, Event.onClose]) Event.start).simulationStatus ≠
      Status.RUNNING := by
  decide

/-- Claim C2 (corrected, amended): startSimulation is a no-op unless the
status is READY and the socket readyState is OPEN; when both hold it clears
the step log, clears the error, appends exactly one "START" to the send log
and moves the status to RUNNING. -/
theorem C2_start (s : SessionState) :
    (¬ (s.sockState = ReadyState.OPEN ∧ s.simulationStatus = Status.READY) →
        dispatch s Event.start = s) ∧
    (s.sockState = ReadyState.OPEN → s.simulationStatus = Status.READY →
        dispatch s Event.start =
          { s with simulationData := []
                   simulationStatus := Status.RUNNING
                   error := none
                   sent := s.sent ++ ["START"] }) := by
  constructor
  · intro h
    exact startSimulation_noop s h
  · intro h1 h2
    simp only [dispatch, startSimulation, if_pos (And.intro h1 h2)]

/-- Witness for C2 at the concrete state reached after the primary socket
opens: start() there sends "START" and moves to RUNNING. -/
theorem C2_start_witness :
    dispatch (run initialState [Event.onOpen]) Event.start =
      { run initialState [Event.onOpen] with
          simulationData := []
          simulationStatus := Status.RUNNING
          error := none
          sent := (run initialState [Event.onOpen]).sent ++ ["START"] } :=
  (C2_start (run initialState [Event.onOpen])).2 (by decide) (by decide)

/-- Claim C3 (corrected) counterexample: open, start, then a completion frame
while RUNNING moves the status to COMPLETE with an empty log; a step frame
arriving afterwards is nevertheless appended, so the log is not frozen. -/
theorem C3_frozen_counterexample :
    admissibleRun initialState
      [Event.onOpen, Event.start, Event.onMessage complFrame,
        Event.onMessage (stepFrame 0 ["A"])] = true ∧
    (run initialState [Event.onOpen, Event.start]).simulationStatus = Status.RUNNING ∧
    (run initialState
        [Event.onOpen, Event.start, Event.onMessage complFrame]).simulationStatus =
      Status.COMPLETE ∧
    (run initialState
        [Event.onOpen, Event.start, Event.onMessage complFrame]).simulationData = [] ∧
    (run initialState
        [Event.onOpen, Event.start, Event.onMessage complFrame,
          Event.onMessage (stepFrame 0 ["A"])]).simulationData =
      [{ status := none, step := some 0, message := none, infected_nodes := ["A"] }] := by
  decide

/-- Claim C3 (corrected, amended): a completion frame sets the status to
COMPLETE (in particular from RUNNING) without touching the step log, but the
handler never consults the phase for step frames: a step frame is appended to
the log in every state, including after COMPLETE, so the log is not frozen. -/
theorem C3_completion_then_steps (s : SessionState) (f : RawFrame) :
    (decode f = DecodedEvent.completion →
        (dispatch s (Event.onMessage f)).simulationStatus = Status.COMPLETE ∧
        (dispatch s (Event.onMessage f)).simulationData = s.simulationData) ∧
    (∀ o : JsonObj, decode f = DecodedEvent.stepEv o →
        (dispatch s (Event.onMessage f)).simulationData = s.simulationData ++ [o] ∧
        (dispatch s (Event.onMessage f)).simulationStatus = s.simulationStatus) := by
  constructor
  · intro h
    simp [dispatch, handleMessage, h]
  · intro o h
    simp [dispatch, handleMessage, h]

/-- Witness for C3 at a concrete state whose phase is COMPLETE: the step
frame is appended there. -/
theorem C3_completion_then_steps_witness :
    (dispatch (run initialState [Event.onOpen, Event.start, Event.onMessage complFrame])
        (Event.onMessage (stepFrame 0 ["A"]))).simulationData =
      (run initialState [Event.onOpen, Event.start, Event.onMessage complFrame]).simulationData ++
        [{ status := none, step := some 0, message := none, infected_nodes := ["A"] }] :=
  ((C3_completion_then_steps
      (run initialState [Event.onOpen, Event.start, Event.onMessage complFrame])
      (stepFrame 0 ["A"])).2
    { status := none, step := some 0, message := none, infected_nodes := ["A"] }
    (by decide)).1

/-- Claim C4 (corrected) counterexample: a malformed frame (JSON.parse throws)
arriving on the open primary socket leaves the status unchanged but sets the
error to "Failed to parse simulation data", and GameScreen then renders the
full-page Simulation Error screen — the failure is surfaced to the user, not
kept in diagnostics only. -/
theorem C4_malformed_counterexample :
    admissibleRun initialState [Event.onOpen, Event.onMessage RawFrame.malformed] = true ∧
    (run initialState [Event.onOpen]).error = none ∧
    (run initialState [Event.onOpen, Event.onMessage RawFrame.malformed]).error =
      some "Failed to parse simulation data" ∧
    simulationErrorShown
      (run initialState [Event.onOpen, Event.onMessage RawFrame.malformed]).error = true ∧
    (run initialState [Event.onOpen, Event.onMessage RawFrame.malformed]).simulationStatus =
      (run initialState [Event.onOpen]).simulationStatus := by
  decide

/-- Claim C4 (corrected, amended): the handler is total, so decoding never
fails the process; a malformed frame leaves the status and the step log
unchanged but sets the user-visible error message "Failed to parse simulation
data" (surfaced by GameScreen); an unrecognized frame changes nothing at all
and is only logged to diagnostics. -/
theorem C4_decode_failure (s : SessionState) :
    ((dispatch s (Event.onMessage RawFrame.malformed)).simulationStatus = s.simulationStatus ∧
     (dispatch s (Event.onMessage RawFrame.malformed)).simulationData = s.simulationData ∧
     (dispatch s (Event.onMessage RawFrame.malformed)).error =
       some "Failed to parse simulation data" ∧
     simulationErrorShown (dispatch s (Event.onMessage RawFrame.malformed)).error = true) ∧
    (∀ f : RawFrame, ∀ o : JsonObj, decode f = DecodedEvent.unrecognized o →
        dispatch s (Event.onMessage f) = s) := by
  constructor
  · exact ⟨rfl, rfl, rfl, rfl⟩
  · intro f o h
    simp only [dispatch, handleMessage, h]

/-- Witness for C4 at the initial state with a concrete unrecognized frame. -/
theorem C4_decode_failure_witness :
    dispatch initialState (Event.onMessage otherFrame) = initialState :=
  (C4_decode_failure initialState).2 otherFrame
    { status := some "other", step := none, message := none, infected_nodes := [] }
    (by decide)

/-- Claim C8 (corrected) counterexample: the frame whose status is
"simulation complete" (which matches the completion marker under the
case-insensitive comparison the claim describes) and which also carries a step
index is classified as a step event, not as a completion event: the code
compares the status with "Simulation_Complete" exactly. -/
theorem C8_marker_counterexample :
    specCompletionMarker (some "simulation complete") = true ∧
    decode (RawFrame.obj
        { status := some "simulation complete", step := some 0, message := none,
          infected_nodes := [] }) =
      DecodedEvent.stepEv
        { status := some "simulation complete", step := some 0, message := none,
          infected_nodes := [] } ∧
    decode (RawFrame.obj
        { status := some "simulation complete", step := some 0, message := none,
          infected_nodes := [] }) ≠ DecodedEvent.completion := by
  decide

/-- Claim C8 (corrected, amended): a parsed frame is classified as a
completion event exactly when its status equals "Simulation_Complete" under
case-sensitive string equality; that check is evaluated before the step check
(a frame with the marker and a step index is still a completion event) and
the step check before the error check. -/
theorem C8_completion_marker (o : JsonObj) :
    (decode (RawFrame.obj o) = DecodedEvent.completion ↔
      o.status = some "Simulation_Complete") ∧
    (o.status ≠ some "Simulation_Complete" → o.step.isSome →
      decode (RawFrame.obj o) = DecodedEvent.stepEv o) := by
  constructor
  · constructor
    · intro hd
      by_contra hns
      simp only [decode, if_neg hns] at hd
      split at hd <;> simp_all
      split at hd <;> simp_all
    · intro h
      simp [decode, h]
  · intro hns hstep
    simp [decode, hns, hstep]

/-- Witness for C8 at a concrete frame carrying both the exact marker and a
step index: it is classified as completion. -/
theorem C8_completion_marker_witness :
    decode (RawFrame.obj
        { status := some "Simulation_Complete", step := some 3, message := none,
          infected_nodes := [] }) = DecodedEvent.completion :=
  (C8_completion_marker
      { status := some "Simulation_Complete", step := some 3, message := none,
        infected_nodes := [] }).1.mpr rfl

/-- Claim C1 (corrected) counterexample: the primary socket opens (so the
primary transport did reach the open state) and then closes without the
manager being intentionally closed; ws.onclose nevertheless starts the
fallback attempt, because the handler never records whether the socket had
opened.  This refutes the claim that the fallback attempt happens only when
the primary closes before ever reaching open. -/
theorem C1_failover_counterexample :
    admissibleRun initialState [Event.onOpen, Event.onClose] = true ∧
    (run initialState [Event.onOpen]).sockRole = Role.primary ∧
    (run initialState [Event.onOpen]).sockState = ReadyState.OPEN ∧
    (run initialState [Event.onOpen]).closedByUs = false ∧
    (run initialState [Event.onOpen, Event.onClose]).sockRole = Role.fallback ∧
    (run initialState [Event.onOpen, Event.onClose]).sockState = ReadyState.CONNECTING := by
  decide

/-- Claim C1 (corrected, amended): whenever the primary socket closes and the
manager was not intentionally closed, the fallback attempt starts — whether
or not the primary ever opened; if the fallback socket closes and the manager
was not intentionally closed, the status becomes DISCONNECTED with the error
"WebSocket connection error"; and once on the fallback no event ever starts
another connection attempt (the role stays fallback and the readyState never
re-enters CONNECTING), so there is no third attempt. -/
theorem C1_failover (s : SessionState) :
    (s.closedByUs = false → s.sockRole = Role.primary →
        (dispatch s Event.onClose).sockRole = Role.fallback ∧
        (dispatch s Event.onClose).sockState = ReadyState.CONNECTING) ∧
    (s.closedByUs = false → s.sockRole = Role.fallback →
        (dispatch s Event.onClose).simulationStatus = Status.DISCONNECTED ∧
        (dispatch s Event.onClose).error = some "WebSocket connection error" ∧
        (dispatch s Event.onClose).sockState = ReadyState.CLOSED) ∧
    (∀ e : Event, s.sockRole = Role.fallback →
        (dispatch s e).sockRole = Role.fallback ∧
        ((dispatch s e).sockState = ReadyState.CONNECTING →
          s.sockState = ReadyState.CONNECTING)) := by
  refine ⟨?_, ?_, ?_⟩
  · intro hc hr
    simp [dispatch, handleClose, hc, hr, connectFallback]
  · intro hc hr
    simp [dispatch, handleClose, hc, hr]
  · intro e hr
    cases e with
    | start =>
        simp only [dispatch, startSimulation]
        split <;> simp_all
    | reset => simp_all [dispatch, resetSimulation]
    | onOpen => simp_all [dispatch, handleOpen]
    | onMessage f =>
        simp only [dispatch, handleMessage]
        cases hd : decode f <;> simp_all
    | onClose =>
        simp only [dispatch, handleClose]
        split <;> simp_all
    | onError => exact ⟨hr, fun h => h⟩
    | teardown =>
        simp only [dispatch, teardownSession]
        split <;> simp_all

/-- Witness for C1 at the concrete state reached after the primary attempt
already failed once: a close of the fallback socket yields DISCONNECTED. -/
theorem C1_failover_witness :
    (dispatch (run initialState [Event.onClose]) Event.onClose).simulationStatus =
      Status.DISCONNECTED :=
  ((C1_failover (run initialState [Event.onClose])).2.1 (by decide) (by decide)).1

/-- After the closedByUs flag is set and the socket is past CONNECTING and
OPEN, any admissible sequence of transport callbacks leaves the state alone
except possibly for the readyState reaching CLOSED: onopen and onmessage are
no longer deliverable, onclose is suppressed by the flag, onerror does
nothing. -/
theorem closed_suffix_frozen (es : List Event) (t : SessionState)
    (hcl : t.closedByUs = true)
    (hc1 : t.sockState ≠ ReadyState.CONNECTING)
    (hc2 : t.sockState ≠ ReadyState.OPEN)
    (htr : ∀ e ∈ es, isTransportEvent e = true)
    (hadm : admissibleRun t es = true) :
    run t es = t ∨ run t es = { t with sockState := ReadyState.CLOSED } := by
  induction es generalizing t with
  | nil => exact Or.inl rfl
  | cons e es ih =>
      have hetr : isTransportEvent e = true := htr e (List.mem_cons_self e es)
      have htr2 : ∀ e ∈ es, isTransportEvent e = true :=
        fun x hx => htr x (List.mem_cons_of_mem e hx)
      rw [admissibleRun, Bool.and_eq_true] at hadm
      rw [run_cons]
      cases e with
      | start => simp [isTransportEvent] at hetr
      | reset => simp [isTransportEvent] at hetr
      | teardown => simp [isTransportEvent] at hetr
      | onOpen =>
          exfalso
          apply hc1
          have := hadm.1
          simpa [admissibleEvent] using this
      | onMessage f =>
          exfalso
          apply hc2
          have := hadm.1
          simpa [admissibleEvent] using this
      | onError => exact ih t hcl hc1 hc2 htr2 hadm.2
      | onClose =>
          have hstep : dispatch t Event.onClose = { t with sockState := ReadyState.CLOSED } := by
            simp [dispatch, handleClose, hcl]
          rw [hstep]
          have h := ih { t with sockState := ReadyState.CLOSED } hcl
            (by simp) (by simp) htr2 (by rw [← hstep]; exact hadm.2)
          rcases h with h | h
          · exact Or.inr h
          · exact Or.inr h

/-- The cleanup itself: the flag is raised, none of the user-visible state
cells change, the role is untouched, and the readyState moves past
CONNECTING and OPEN (to CLOSING when close() is called, otherwise it was
already CLOSING or CLOSED). -/
theorem teardownSession_fields (s : SessionState) :
    (teardownSession s).closedByUs = true ∧
    (teardownSession s).simulationStatus = s.simulationStatus ∧
    (teardownSession s).simulationData = s.simulationData ∧
    (teardownSession s).error = s.error ∧
    (teardownSession s).sockRole = s.sockRole ∧
    (teardownSession s).sockState ≠ ReadyState.CONNECTING ∧
    (teardownSession s).sockState ≠ ReadyState.OPEN := by
  simp only [teardownSession]
  split
  · simp
  · rename_i h
    push_neg at h
    simp [h.1, h.2]

/-- Claim C5 (confirmed): the cleanup sets the closedByUs flag (before the
transport close, modelled as part of the same atomic cleanup), and after the
cleanup no admissible sequence of late transport callbacks changes the
status, the step log, the error or the socket role, and none starts a
fallback connection attempt (the readyState never re-enters CONNECTING). -/
theorem C5_teardown_frozen (s : SessionState) (es : List Event)
    (htr : ∀ e ∈ es, isTransportEvent e = true)
    (hadm : admissibleRun (dispatch s Event.teardown) es = true) :
    (dispatch s Event.teardown).closedByUs = true ∧
    (run (dispatch s Event.teardown) es).simulationStatus = s.simulationStatus ∧
    (run (dispatch s Event.teardown) es).simulationData = s.simulationData ∧
    (run (dispatch s Event.teardown) es).error = s.error ∧
    (run (dispatch s Event.teardown) es).sockRole = s.sockRole ∧
    (run (dispatch s Event.teardown) es).sockState ≠ ReadyState.CONNECTING := by
  have hf := teardownSession_fields s
  have hrun := closed_suffix_frozen es (teardownSession s) hf.1 hf.2.2.2.2.2.1
    hf.2.2.2.2.2.2 htr hadm
  have hd : dispatch s Event.teardown = teardownSession s := rfl
  rw [hd] at *
  rcases hrun with h | h <;> rw [h]
  · exact ⟨hf.1, hf.2.1, hf.2.2.1, hf.2.2.2.1, hf.2.2.2.2.1, hf.2.2.2.2.2.1⟩
  · exact ⟨hf.1, hf.2.1, hf.2.2.1, hf.2.2.2.1, hf.2.2.2.2.1, by simp⟩

/-- Witness for C5: teardown from the mounted state (socket CONNECTING), then
the late onclose of the aborted primary socket arrives; nothing changes and
no fallback attempt starts. -/
theorem C5_teardown_frozen_witness :
    (dispatch initialState Event.teardown).closedByUs = true ∧
    (run (dispatch initialState Event.teardown) [Event.onClose]).simulationStatus =
      initialState.simulationStatus ∧
    (run (dispatch initialState Event.teardown) [Event.onClose]).simulationData =
      initialState.simulationData ∧
    (run (dispatch initialState Event.teardown) [Event.onClose]).error = initialState.error ∧
    (run (dispatch initialState Event.teardown) [Event.onClose]).sockRole =
      initialState.sockRole ∧
    (run (dispatch initialState Event.teardown) [Event.onClose]).sockState ≠
      ReadyState.CONNECTING :=
  C5_teardown_frozen initialState [Event.onClose] (by decide) (by decide)

/-- Starting from any state whose status is not READY, running any sequence
of events that contains no onOpen keeps the status away from READY. -/
theorem run_not_ready (es : List Event) (t : SessionState)
    (ht : t.simulationStatus ≠ Status.READY) (hes : Event.onOpen ∉ es) :
    (run t es).simulationStatus ≠ Status.READY := by
  induction es generalizing t with
  | nil => exact ht
  | cons e es ih =>
      rw [run_cons]
      have he : e ≠ Event.onOpen := by
        intro h
        exact hes (h ▸ List.mem_cons_self e es)
      have hes2 : Event.onOpen ∉ es := fun h => hes (List.mem_cons_of_mem e h)
      exact ih (dispatch t e) (status_ready_only_onOpen t e he ht) hes2

/-- Claim C10 (confirmed): after resetSimulation the status is IDLE, and only
onOpen can ever make it READY again; so along any event sequence without an
onOpen, the status never becomes READY and every start() call in that stretch
is a rejected no-op. -/
theorem C10_start_noop_after_reset (s : SessionState) (es : List Event)
    (hes : Event.onOpen ∉ es) :
    (run (resetSimulation s) es).simulationStatus ≠ Status.READY ∧
    dispatch (run (resetSimulation s) es) Event.start = run (resetSimulation s) es := by
  have h0 : (resetSimulation s).simulationStatus ≠ Status.READY := by
    simp [resetSimulation]
  have h1 := run_not_ready es (resetSimulation s) h0 hes
  refine ⟨h1, ?_⟩
  exact startSimulation_noop _ (fun hh => h1 hh.2)

/-- Witness for C10: after a reset at the initial state, a stretch with a
stale start click, a completion frame oddity and a close contains no onOpen,
so the final start() is still a no-op. -/
theorem C10_start_noop_after_reset_witness :
    (run (resetSimulation initialState)
        [Event.start, Event.onClose, Event.onMessage complFrame]).simulationStatus ≠
      Status.READY ∧
    dispatch
        (run (resetSimulation initialState)
          [Event.start, Event.onClose, Event.onMessage complFrame]) Event.start =
      run (resetSimulation initialState)
        [Event.start, Event.onClose, Event.onMessage complFrame] :=
  C10_start_noop_after_reset initialState
    [Event.start, Event.onClose, Event.onMessage complFrame] (by decide)
